import Mathlib

/-
Verification of the Cortex V2.1 embedding service
(src/python-service/embedding_service.py).

The service is a thin HTTP facade over an opaque embedding backend.
We embed it shallowly:

* The backend (HuggingFaceEmbeddings) is opaque in the source; we model it
  as a structure of two functions, one per backend method used by the
  service.  A backend call that raises an exception is modelled as an
  Except.error carrying the exception text.
* The single piece of process state is the global variable
  embeddings_model, of type Option Backend (None before the lifespan
  startup completes, Some afterwards).
* Each endpoint handler is a function from the service state and the
  request body to a pair of (outcome, state after the request).  The
  handlers never assign the global in the source, so each returns the
  state unchanged; returning it makes the no-mutation facts provable
  rather than implicit.
* An HTTPException raised by the handler is the constructor httpError
  with its status code and detail string.  An exception that the handler
  does not catch (no enclosing try block in the source) propagates to the
  framework; we model that as the distinct constructor unhandled.
-/

/-- Opaque embedding backend, as used by the service: embed_query for one
text, embed_documents for a batch.  An error value models the backend
raising an exception with that message. -/
structure Backend where
  embedQuery : String → Except String (List Float)
  embedDocuments : List String → Except String (List (List Float))

/-- The process-wide state: the global variable embeddings_model, which is
None until the lifespan startup succeeds. -/
structure ServiceState where
  embeddings_model : Option Backend

/-- Outcome of one request: a 200 body, an HTTPException with status code
and detail, or an exception the handler let escape uncaught. -/
inductive HttpOutcome (α : Type) where
  | ok (body : α)
  | httpError (statusCode : Nat) (detail : String)
  | unhandled (msg : String)

/-- Request body of POST /embed. -/
structure EmbedRequest where
  text : String

/-- Request body of POST /embed/batch. -/
structure EmbedBatchRequest where
  texts : List String

/-- Response body of POST /embed. -/
structure EmbedResponse where
  embedding : List Float
  dimension : Nat

/-- Response body of POST /embed/batch. -/
structure EmbedBatchResponse where
  embeddings : List (List Float)
  dimension : Nat
  count : Nat

/-- Response body of GET /health. -/
structure HealthResponse where
  status : String
  service : String
  version : String
  model_loaded : Bool

/-- Response body of GET /models/info. -/
structure ModelInfoResponse where
  model_name : String
  provider : String
  embedding_dimension : Nat
  max_sequence_length : Nat
  suitable_for : List String

/-- GET /health handler.  Translates the source directly: it always
returns the literal dictionary, with model_loaded the test
embeddings_model is not None. -/
def health_check (st : ServiceState) : HttpOutcome HealthResponse × ServiceState :=
  (.ok { status := ("healthy"), service := ("cortex-embedding-service"),
         version := ("2.1.0"),
         model_loaded := st.embeddings_model.isSome }, st)

/-- POST /embed handler.  Guard: 503 when the model is not loaded.  The
backend call sits inside a try block, so a backend error becomes a 500
HTTPException wrapping the exception text. -/
def embed_text (st : ServiceState) (request : EmbedRequest) :
    HttpOutcome EmbedResponse × ServiceState :=
  match st.embeddings_model with
  | none => (.httpError 503 ("Embedding model not loaded"), st)
  | some m =>
    match m.embedQuery request.text with
    | .ok embedding =>
      (.ok { embedding := embedding, dimension := embedding.length }, st)
    | .error e =>
      (.httpError 500 (("Embedding generation failed: ") ++ e), st)

/-- POST /embed/batch handler.  Guards in source order: first the 503
model-loaded check, then the 400 batch-size check; then the backend call
inside a try block.  dimension is the length of the first vector when the
result is non-empty, else 0; count is the length of the backend result. -/
def embed_batch (st : ServiceState) (request : EmbedBatchRequest) :
    HttpOutcome EmbedBatchResponse × ServiceState :=
  match st.embeddings_model with
  | none => (.httpError 503 ("Embedding model not loaded"), st)
  | some m =>
    if request.texts.length > 100 then
      (.httpError 400 ("Batch size too large (max 100)"), st)
    else
      match m.embedDocuments request.texts with
      | .ok embeddings =>
        (.ok { embeddings := embeddings,
               dimension := match embeddings with
                            | [] => 0
                            | v :: _ => v.length,
               count := embeddings.length }, st)
      | .error e =>
        (.httpError 500 (("Batch embedding generation failed: ") ++ e), st)

/-- GET /models/info handler.  Guard: 503 when the model is not loaded.
The probe call embed_query is NOT inside a try block in the source, so a
backend error escapes the handler uncaught. -/
def model_info (st : ServiceState) : HttpOutcome ModelInfoResponse × ServiceState :=
  match st.embeddings_model with
  | none => (.httpError 503 ("Embedding model not loaded"), st)
  | some m =>
    match m.embedQuery ("test") with
    | .error e => (.unhandled e, st)
    | .ok test_embedding =>
      (.ok { model_name := ("all-MiniLM-L6-v2"), provider := ("HuggingFace"),
             embedding_dimension := test_embedding.length,
             max_sequence_length := 512,
             suitable_for := [("code"), ("text"), ("semantic_search")] }, st)

/-- The fixed probe string embedded during startup (braces written as
escapes). -/
def probeText : String := "function test() \x7b return 42; \x7d"

/-- Startup half of the lifespan context manager.  The argument models the
backend construction (import plus HuggingFaceEmbeddings constructor),
which can itself raise.  On success the probe embedding runs; any failure
is re-raised, so startup yields an error and no service state is ever
produced.  On success the global embeddings_model is set. -/
def lifespan_startup (loadModel : Except String Backend) :
    Except String ServiceState :=
  match loadModel with
  | .error e => .error e
  | .ok m =>
    match m.embedQuery probeText with
    | .error e => .error e
    | .ok _ => .ok { embeddings_model := some m }

/-- Shutdown half of the lifespan context manager.  The source only logs a
message after yield; it does not assign embeddings_model or release the
backend, so the state is returned unchanged. -/
def lifespan_shutdown (st : ServiceState) : ServiceState := st

/-- Backend test fixture returning the fixed vector v for every input. -/
def constBackend (v : List Float) : Backend :=
  { embedQuery := fun _ => .ok v,
    embedDocuments := fun ts => .ok (ts.map (fun _ => v)) }

/-- Backend test fixture raising with the fixed message on every call. -/
def failBackend (msg : String) : Backend :=
  { embedQuery := fun _ => .error msg,
    embedDocuments := fun _ => .error msg }

/-- State fixture: model not loaded. -/
def st_empty : ServiceState := { embeddings_model := none }

/-- State fixture: model loaded with a 2-dimensional constant backend. -/
def st_ready : ServiceState :=
  { embeddings_model := some (constBackend [1.0, 2.0]) }

/-- Request fixture: a batch of 101 texts. -/
def req101 : EmbedBatchRequest := { texts := List.replicate 101 ("x") }

/-- C7: the health check never fails in any handle state: it always
returns a 200 body carrying the status, service and version fields, with
model_loaded true exactly when the handle is loaded. -/
theorem health_check_never_fails (st : ServiceState) :
    ∃ body : HealthResponse,
      health_check st = (.ok body, st) ∧
      body.status = ("healthy") ∧
      body.service = ("cortex-embedding-service") ∧
      body.version = ("2.1.0") ∧
      (body.model_loaded = true ↔ ∃ m, st.embeddings_model = some m) :=
  ⟨_, rfl, rfl, rfl, rfl, Option.isSome_iff_exists⟩

/-- C9 counterexample: running the lifespan shutdown on a ready state does
not release the backend reference (embeddings_model stays set), and a
single-text embed performed after shutdown still succeeds, so the handle
is not in a terminal Stopped state. -/
theorem lifespan_shutdown_keeps_reference :
    (lifespan_shutdown st_ready).embeddings_model.isSome = true ∧
    (embed_text (lifespan_shutdown st_ready) { text := ("hi") }).1 =
      .ok { embedding := [1.0, 2.0], dimension := 2 } :=
  ⟨rfl, rfl⟩

/-- C9 (amended): the shutdown half of the lifespan only logs: it leaves
the state, and hence the backend reference, unchanged, and is therefore
trivially idempotent; there is no Stopped state and embed operations
after shutdown behave exactly as before. -/
theorem lifespan_shutdown_noop (st : ServiceState) :
    lifespan_shutdown st = st ∧
    lifespan_shutdown (lifespan_shutdown st) = lifespan_shutdown st ∧
    embed_batch (lifespan_shutdown st) = embed_batch st :=
  ⟨rfl, rfl, rfl⟩

/-- C10: in embed_batch the model-loaded guard runs before the batch-size
guard: with the model not loaded and more than 100 texts the result is
the 503 error, not the 400 error. -/
theorem embed_batch_guard_order (st : ServiceState) (req : EmbedBatchRequest)
    (hm : st.embeddings_model = none) (hlen : req.texts.length > 100) :
    embed_batch st req = (.httpError 503 ("Embedding model not loaded"), st) ∧
    (embed_batch st req).1 ≠ .httpError 400 ("Batch size too large (max 100)") := by
  have h : embed_batch st req = (.httpError 503 ("Embedding model not loaded"), st) := by
    unfold embed_batch
    rw [hm]
  refine ⟨h, ?_⟩
  rw [h]
  intro hcontra
  have : (503 : Nat) = 400 := by injection hcontra
  exact absurd this (by decide)

/-- C10 witness: a concrete unloaded state and a concrete batch of 101
texts hit the 503 branch. -/
theorem embed_batch_guard_order_witness :
    embed_batch st_empty req101 =
      (.httpError 503 ("Embedding model not loaded"), st_empty) :=
  (embed_batch_guard_order st_empty req101 rfl
    (by simp [req101])).1

/-- C2 counterexample: as stated the claim quantifies over all batch
requests with more than 100 texts, but on an unloaded handle such a
request fails with the 503 model-not-loaded error, not the 400
BadRequest. -/
theorem embed_batch_oversize_unloaded_not_400 :
    (embed_batch st_empty req101).1 =
      .httpError 503 ("Embedding model not loaded") ∧
    (embed_batch st_empty req101).1 ≠
      .httpError 400 ("Batch size too large (max 100)") := by
  refine ⟨rfl, ?_⟩
  intro hcontra
  rw [show (embed_batch st_empty req101).1 =
        .httpError 503 ("Embedding model not loaded") from rfl] at hcontra
  have : (503 : Nat) = 400 := by injection hcontra
  exact absurd this (by decide)

/-- C2 (amended): on a LOADED handle, every batch request with more than
100 texts fails with the 400 BadRequest carrying the fixed message, the
state is unchanged, and the result is the same fixed value for every
backend, so no backend call can have influenced it. -/
theorem embed_batch_oversize_ready (st : ServiceState) (m : Backend)
    (req : EmbedBatchRequest)
    (hm : st.embeddings_model = some m) (hlen : req.texts.length > 100) :
    embed_batch st req =
      (.httpError 400 ("Batch size too large (max 100)"), st) ∧
    ∀ m₁ m₂ : Backend,
      (embed_batch { embeddings_model := some m₁ } req).1 =
      (embed_batch { embeddings_model := some m₂ } req).1 := by
  constructor
  · simp only [embed_batch, hm]
    rw [if_pos hlen]
  · intro m₁ m₂
    simp only [embed_batch]
    rw [if_pos hlen, if_pos hlen]

/-- C2 witness: a concrete loaded state and a concrete batch of 101 texts
hit the 400 branch. -/
theorem embed_batch_oversize_ready_witness :
    embed_batch st_ready req101 =
      (.httpError 400 ("Batch size too large (max 100)"), st_ready) :=
  (embed_batch_oversize_ready st_ready (constBackend [1.0, 2.0]) req101 rfl
    (by simp [req101])).1

/-- C4: while the model is not loaded, all three embedding-producing
endpoints (embed single, embed batch, model info) fail with the 503
ServiceUnavailable error, for every request body, leaving the state
unchanged. -/
theorem not_ready_endpoints_503 (st : ServiceState)
    (hm : st.embeddings_model = none) :
    (∀ req : EmbedRequest,
      embed_text st req = (.httpError 503 ("Embedding model not loaded"), st)) ∧
    (∀ req : EmbedBatchRequest,
      embed_batch st req = (.httpError 503 ("Embedding model not loaded"), st)) ∧
    model_info st = (.httpError 503 ("Embedding model not loaded"), st) := by
  refine ⟨fun req => ?_, fun req => ?_, ?_⟩
  · unfold embed_text
    rw [hm]
  · unfold embed_batch
    rw [hm]
  · unfold model_info
    rw [hm]

/-- C4 witness: concrete request bodies on the concrete unloaded state all
receive the 503 error. -/
theorem not_ready_endpoints_503_witness :
    embed_text st_empty { text := ("hi") } =
      (.httpError 503 ("Embedding model not loaded"), st_empty) ∧
    embed_batch st_empty { texts := [("a"), ("b")] } =
      (.httpError 503 ("Embedding model not loaded"), st_empty) ∧
    model_info st_empty =
      (.httpError 503 ("Embedding model not loaded"), st_empty) :=
  ⟨(not_ready_endpoints_503 st_empty rfl).1 _,
   (not_ready_endpoints_503 st_empty rfl).2.1 _,
   (not_ready_endpoints_503 st_empty rfl).2.2⟩

/-- C5: when the startup probe embedding fails, the lifespan startup
fails with that error and never produces a service state, so the process
aborts before any request can be served against a loaded handle. -/
theorem probe_failure_aborts_startup (m : Backend) (e : String)
    (hprobe : m.embedQuery probeText = .error e) :
    lifespan_startup (.ok m) = .error e ∧
    ∀ st : ServiceState, lifespan_startup (.ok m) ≠ .ok st := by
  have h : lifespan_startup (.ok m) = .error e := by
    simp only [lifespan_startup]
    rw [hprobe]
  exact ⟨h, fun st hcontra => by rw [h] at hcontra; cases hcontra⟩

/-- C5 witness: a backend whose every call raises makes the startup fail
with the probe error. -/
theorem probe_failure_aborts_startup_witness :
    lifespan_startup (.ok (failBackend ("boom"))) = .error ("boom") :=
  (probe_failure_aborts_startup (failBackend ("boom")) ("boom") rfl).1

/-- C3: on a loaded handle, when the backend call succeeds, the single
embed endpoint returns a 200 EmbedResponse whose dimension field equals
the length of the returned embedding vector, and the state is
unchanged. -/
theorem embed_text_dimension (st : ServiceState) (m : Backend)
    (req : EmbedRequest) (v : List Float)
    (hm : st.embeddings_model = some m)
    (hok : m.embedQuery req.text = .ok v) :
    ∃ resp : EmbedResponse,
      embed_text st req = (.ok resp, st) ∧
      resp.embedding = v ∧
      resp.dimension = resp.embedding.length := by
  simp only [embed_text, hm]
  rw [hok]
  exact ⟨_, rfl, rfl, rfl⟩

/-- C3 witness: the concrete constant backend yields a 2-vector with
dimension 2. -/
theorem embed_text_dimension_witness :
    ∃ resp : EmbedResponse,
      embed_text st_ready { text := ("hello") } = (.ok resp, st_ready) ∧
      resp.embedding = [1.0, 2.0] ∧
      resp.dimension = resp.embedding.length :=
  embed_text_dimension st_ready (constBackend [1.0, 2.0])
    { text := ("hello") } [1.0, 2.0] rfl rfl

/-- C6 counterexample: on a loaded handle whose backend raises, the model
info endpoint does not wrap the failure in a 500 HTTPException: the probe
call sits outside any try block, so the exception escapes the handler
uncaught. -/
theorem model_info_backend_error_escapes :
    (model_info { embeddings_model := some (failBackend ("boom")) }).1 =
      .unhandled ("boom") ∧
    (model_info { embeddings_model := some (failBackend ("boom")) }).1 ≠
      .httpError 500 (("Embedding generation failed: ") ++ ("boom")) := by
  refine ⟨rfl, ?_⟩
  intro hcontra
  rw [show (model_info { embeddings_model := some (failBackend ("boom")) }).1 =
        .unhandled ("boom") from rfl] at hcontra
  cases hcontra

/-- C6 (amended): on a loaded handle, for the two embed endpoints (single
and batch, where the backend call sits inside a try block), a backend
failure is caught and surfaced as a 500 HTTPException wrapping the
exception text, and the state is unchanged. -/
theorem embed_endpoints_wrap_backend_error (st : ServiceState) (m : Backend)
    (e : String) (hm : st.embeddings_model = some m) :
    (∀ req : EmbedRequest, m.embedQuery req.text = .error e →
      embed_text st req =
        (.httpError 500 (("Embedding generation failed: ") ++ e), st)) ∧
    (∀ req : EmbedBatchRequest, req.texts.length ≤ 100 →
      m.embedDocuments req.texts = .error e →
      embed_batch st req =
        (.httpError 500 (("Batch embedding generation failed: ") ++ e), st)) := by
  constructor
  · intro req herr
    simp only [embed_text, hm]
    rw [herr]
  · intro req hlen herr
    simp only [embed_batch, hm]
    rw [if_neg (by omega : ¬ req.texts.length > 100)]
    rw [herr]

/-- C6 witness: the concrete raising backend produces the wrapped 500 on
both embed endpoints. -/
theorem embed_endpoints_wrap_backend_error_witness :
    embed_text { embeddings_model := some (failBackend ("boom")) }
        { text := ("hi") } =
      (.httpError 500 (("Embedding generation failed: ") ++ ("boom")),
       { embeddings_model := some (failBackend ("boom")) }) ∧
    embed_batch { embeddings_model := some (failBackend ("boom")) }
        { texts := [("a")] } =
      (.httpError 500 (("Batch embedding generation failed: ") ++ ("boom")),
       { embeddings_model := some (failBackend ("boom")) }) :=
  ⟨(embed_endpoints_wrap_backend_error
      { embeddings_model := some (failBackend ("boom")) }
      (failBackend ("boom")) ("boom") rfl).1 _ rfl,
   (embed_endpoints_wrap_backend_error
      { embeddings_model := some (failBackend ("boom")) }
      (failBackend ("boom")) ("boom") rfl).2 _ (by decide) rfl⟩

/-- C8: on a loaded handle whose probe succeeds, every model info call
reports embedding_dimension equal to the length of a fresh probe
embedding of the string test against the current backend (no cache is
consulted), together with the fixed metadata including
max_sequence_length 512; the state is unchanged, so a repeated call
returns the same response, in particular the same embedding_dimension. -/
theorem model_info_fresh_probe (st : ServiceState) (m : Backend)
    (v : List Float) (hm : st.embeddings_model = some m)
    (hok : m.embedQuery ("test") = .ok v) :
    model_info st =
      (.ok { model_name := ("all-MiniLM-L6-v2"), provider := ("HuggingFace"),
             embedding_dimension := v.length,
             max_sequence_length := 512,
             suitable_for := [("code"), ("text"), ("semantic_search")] }, st) ∧
    (model_info (model_info st).2).1 = (model_info st).1 := by
  have h : model_info st =
      (.ok { model_name := ("all-MiniLM-L6-v2"), provider := ("HuggingFace"),
             embedding_dimension := v.length,
             max_sequence_length := 512,
             suitable_for := [("code"), ("text"), ("semantic_search")] }, st) := by
    simp only [model_info, hm]
    rw [hok]
  refine ⟨h, ?_⟩
  have h2 : (model_info st).2 = st := by rw [h]
  rw [h2, h]

/-- C8 witness: the concrete constant backend reports dimension 2 on the
concrete ready state, twice. -/
theorem model_info_fresh_probe_witness :
    model_info st_ready =
      (.ok { model_name := ("all-MiniLM-L6-v2"), provider := ("HuggingFace"),
             embedding_dimension := 2,
             max_sequence_length := 512,
             suitable_for := [("code"), ("text"), ("semantic_search")] },
       st_ready) ∧
    (model_info (model_info st_ready).2).1 = (model_info st_ready).1 :=
  model_info_fresh_probe st_ready (constBackend [1.0, 2.0]) [1.0, 2.0] rfl rfl

/-- Request fixture: a small batch of two texts. -/
def reqAB : EmbedBatchRequest := { texts := [("a"), ("b")] }

/-- C1: on a loaded handle, for a batch of at most 100 texts, when the
backend returns one vector per input text and all returned vectors share
one length, embed_batch returns a 200 EmbedBatchResponse whose count
equals the number of input texts, whose dimension is the length of the
first returned vector (0 with empty embeddings when texts is empty), and
whose every element has length equal to dimension; the state is
unchanged.  The two backend hypotheses are the contract of the opaque
backend: embed_documents yields a fixed-dimension vector for each input
text. -/
theorem embed_batch_ready_spec (st : ServiceState) (m : Backend)
    (req : EmbedBatchRequest) (es : List (List Float))
    (hm : st.embeddings_model = some m)
    (hlen : req.texts.length ≤ 100)
    (hok : m.embedDocuments req.texts = .ok es)
    (hcount : es.length = req.texts.length)
    (huni : ∀ u ∈ es, ∀ v ∈ es, u.length = v.length) :
    ∃ resp : EmbedBatchResponse,
      embed_batch st req = (.ok resp, st) ∧
      resp.embeddings = es ∧
      resp.count = req.texts.length ∧
      (∀ v ∈ resp.embeddings, v.length = resp.dimension) ∧
      (req.texts = [] → resp.embeddings = [] ∧ resp.dimension = 0) ∧
      (∀ v vs, resp.embeddings = v :: vs → resp.dimension = v.length) := by
  simp only [embed_batch, hm]
  rw [if_neg (by omega : ¬ req.texts.length > 100)]
  rw [hok]
  refine ⟨_, rfl, rfl, hcount, ?_, ?_, ?_⟩
  · intro v hv
    have hv2 : v ∈ es := hv
    cases es with
    | nil => cases hv2
    | cons h t => exact huni v hv2 h (List.mem_cons_self h t)
  · intro hnil
    have hes : es = [] := List.length_eq_zero.mp (by rw [hcount, hnil]; rfl)
    subst hes
    exact ⟨rfl, rfl⟩
  · intro v vs hvv
    have hvv2 : es = v :: vs := hvv
    subst hvv2
    rfl

/-- C1 witness: a concrete two-text batch on the concrete ready state
yields two 2-vectors with count 2 and dimension 2. -/
theorem embed_batch_ready_spec_witness :
    ∃ resp : EmbedBatchResponse,
      embed_batch st_ready reqAB = (.ok resp, st_ready) ∧
      resp.embeddings = [[1.0, 2.0], [1.0, 2.0]] ∧
      resp.count = reqAB.texts.length ∧
      (∀ v ∈ resp.embeddings, v.length = resp.dimension) ∧
      (reqAB.texts = [] → resp.embeddings = [] ∧ resp.dimension = 0) ∧
      (∀ v vs, resp.embeddings = v :: vs → resp.dimension = v.length) :=
  embed_batch_ready_spec st_ready (constBackend [1.0, 2.0]) reqAB
    [[1.0, 2.0], [1.0, 2.0]] rfl (by decide) rfl rfl
    (by
      intro u hu v hv
      simp only [List.mem_cons, List.not_mem_nil, or_false] at hu hv
      rcases hu with rfl | rfl <;> rcases hv with rfl | rfl <;> rfl)
